import Mathlib

/-!
Shallow embedding of `src/addon.cpp`, the N-API binding of the EPD 7.3" (E)
e-Paper vendor driver.  Each exported binding function is translated into a
pure Lean function from its JavaScript arguments (and, where the source reads
them, the vendor header constants or the hardware-init status) to an outcome:
either a thrown JavaScript exception or a returned value, together with the
list of vendor-driver routines invoked by the call.
-/

namespace Epd

/-- Kind of JavaScript exception the binding raises: `Napi::TypeError` or
`Napi::Error`. -/
inductive ErrKind where
  | typeError
  | error
deriving DecidableEq, Repr

/-- A thrown JavaScript exception: its kind and its message string. -/
structure JsError where
  kind : ErrKind
  msg : String
deriving DecidableEq, Repr

/-- A JavaScript value as the binding distinguishes them: a number (the
binding only ever reads integral numbers, via `Uint32Value`, so the numeric
payload is modelled as the mathematical integer), a byte buffer, `null`, or
any other value (string, object, undefined, ...). -/
inductive NapiValue where
  | number (v : Int)
  | buffer (data : List Nat)
  | null
  | other
deriving DecidableEq, Repr

/-- `IsNumber()` of `Napi::Value`. -/
def NapiValue.isNumber : NapiValue → Bool
  | .number _ => true
  | _ => false

/-- `IsBuffer()` of `Napi::Value`. -/
def NapiValue.isBuffer : NapiValue → Bool
  | .buffer _ => true
  | _ => false

/-- 2^32, the modulus of C `uint32_t` arithmetic. -/
def U32 : Nat := 4294967296

/-- `Napi::Number::Uint32Value()` on an integral number: ECMAScript `ToUint32`,
i.e. reduction modulo 2^32 into `[0, 2^32)`. -/
def toUint32 (v : Int) : Nat := (v % (4294967296 : Int)).toNat

/-- `info[0].As<Napi::Number>().Uint32Value()`; only ever evaluated after the
`IsNumber` check, the default branch is unreachable in the binding. -/
def NapiValue.uint32Value : NapiValue → Nat
  | .number v => toUint32 v
  | _ => 0

/-- `info[0].As<Napi::Buffer<uint8_t>>()`'s byte contents; only ever evaluated
after the `IsBuffer` check, the default branch is unreachable in the binding. -/
def NapiValue.bufferData : NapiValue → List Nat
  | .buffer d => d
  | _ => []

/-- One invocation of a vendor-driver routine. -/
inductive DriverCall where
  | devModuleInit
  | epdInit
  | epdClear (color : Nat)
  | epdDisplay (data : List Nat)
  | epdShow
  | epdShow7Block
  | epdSleep
  | devModuleExit
deriving DecidableEq, Repr

/-- What the binding raises or returns. -/
inductive CallResult where
  | threw (e : JsError)
  | ret (v : NapiValue)
deriving DecidableEq, Repr

/-- Outcome of one binding call: the result at the JavaScript boundary and the
driver routines invoked, in order. -/
structure CallOutcome where
  result : CallResult
  calls : List DriverCall
deriving DecidableEq, Repr

/-- Modelled from the spec: the vendor driver header `EPD_7in3e.h` is not part
of this repository.  The spec describes it as fixed width/height constants
(`EPD_7IN3E_WIDTH`, `EPD_7IN3E_HEIGHT`) and six small integer color codes, so
the header is embedded abstractly as a record of those constants. -/
structure VendorHeader where
  width : Nat
  height : Nat
  black : Nat
  white : Nat
  yellow : Nat
  red : Nat
  blue : Nat
  green : Nat
deriving DecidableEq, Repr

/-- `info[i]`: argument access on the callback info. -/
def argAt (info : List NapiValue) (i : Nat) : NapiValue :=
  info.getD i NapiValue.other

/-- Lines 72-74 and 114-115 of `addon.cpp`: the expected buffer size,
`uint32_t width = (W % 2 == 0) ? W/2 : W/2 + 1; uint32_t height = H;
width * height` in `uint32_t` arithmetic. -/
def expectedSize (hdr : VendorHeader) : Nat :=
  ((if hdr.width % 2 = 0 then hdr.width / 2 else hdr.width / 2 + 1) % U32
    * (hdr.height % U32)) % U32

/-- `Init`: calls `DEV_Module_Init()`; on non-zero status throws
`Napi::Error("Failed to initialize e-Paper module")`, otherwise calls
`EPD_7IN3E_Init()` and returns `null`. -/
def Init (devStatus : Nat) : CallOutcome :=
  if devStatus ≠ 0 then
    ⟨.threw ⟨.error, "Failed to initialize e-Paper module"⟩, [.devModuleInit]⟩
  else
    ⟨.ret .null, [.devModuleInit, .epdInit]⟩

/-- `Clear`: arity check, `IsNumber` check, then
`uint8_t color = info[0].As<Napi::Number>().Uint32Value();
EPD_7IN3E_Clear(color);` (the `uint8_t` conversion truncates modulo 256). -/
def Clear (info : List NapiValue) : CallOutcome :=
  if info.length < 1 then
    ⟨.threw ⟨.typeError, "Wrong number of arguments"⟩, []⟩
  else if !(argAt info 0).isNumber then
    ⟨.threw ⟨.typeError, "Expected number"⟩, []⟩
  else
    ⟨.ret .null, [.epdClear ((argAt info 0).uint32Value % 256)]⟩

/-- `Display`: arity check, `IsBuffer` check, then compares
`buffer.Length()` against the expected size; on mismatch throws
`Napi::Error("Buffer size mismatch. Expected <n> bytes")`, otherwise calls
`EPD_7IN3E_Display(buffer.Data())` and returns `null`. -/
def Display (hdr : VendorHeader) (info : List NapiValue) : CallOutcome :=
  if info.length < 1 then
    ⟨.threw ⟨.typeError, "Wrong number of arguments"⟩, []⟩
  else if !(argAt info 0).isBuffer then
    ⟨.threw ⟨.typeError, "Expected buffer"⟩, []⟩
  else if (argAt info 0).bufferData.length ≠ expectedSize hdr then
    ⟨.threw ⟨.error,
      "Buffer size mismatch. Expected " ++ toString (expectedSize hdr) ++ " bytes"⟩, []⟩
  else
    ⟨.ret .null, [.epdDisplay (argAt info 0).bufferData]⟩

/-- `Show7Block`: unconditional passthrough to `EPD_7IN3E_Show7Block()`. -/
def Show7Block (_info : List NapiValue) : CallOutcome :=
  ⟨.ret .null, [.epdShow7Block]⟩

/-- `Show`: unconditional passthrough to `EPD_7IN3E_Show()`. -/
def Show (_info : List NapiValue) : CallOutcome :=
  ⟨.ret .null, [.epdShow]⟩

/-- `Sleep`: unconditional passthrough to `EPD_7IN3E_Sleep()`. -/
def Sleep (_info : List NapiValue) : CallOutcome :=
  ⟨.ret .null, [.epdSleep]⟩

/-- `Exit`: unconditional passthrough to `DEV_Module_Exit()`. -/
def Exit (_info : List NapiValue) : CallOutcome :=
  ⟨.ret .null, [.devModuleExit]⟩

/-- `GetWidth`: returns `Napi::Number::New(env, EPD_7IN3E_WIDTH)`. -/
def GetWidth (hdr : VendorHeader) (_info : List NapiValue) : CallOutcome :=
  ⟨.ret (.number (hdr.width : Int)), []⟩

/-- `GetHeight`: returns `Napi::Number::New(env, EPD_7IN3E_HEIGHT)`. -/
def GetHeight (hdr : VendorHeader) (_info : List NapiValue) : CallOutcome :=
  ⟨.ret (.number (hdr.height : Int)), []⟩

/-- `GetBufferSize`: recomputes the expected buffer size exactly as `Display`
does and returns it as a number. -/
def GetBufferSize (hdr : VendorHeader) (_info : List NapiValue) : CallOutcome :=
  ⟨.ret (.number (expectedSize hdr : Int)), []⟩

/-- `CreateColorConstants`: builds the `Colors` object, setting the six keys
from the vendor header codes in source order. -/
def CreateColorConstants (hdr : VendorHeader) : List (String × Nat) :=
  [("BLACK", hdr.black), ("WHITE", hdr.white), ("YELLOW", hdr.yellow),
   ("RED", hdr.red), ("BLUE", hdr.blue), ("GREEN", hdr.green)]

/-- The spec's formula for the accepted buffer size, in its own words:
`ceil(width/2) * height`. -/
def specBufferSize (hdr : VendorHeader) : Nat :=
  (hdr.width + 1) / 2 * hdr.height

/-- The concrete Waveshare 7.3" (E) panel constants, used to instantiate the
abstract header in witnesses: 800x480, palette codes 0,1,2,3,5,6. -/
def hdr800 : VendorHeader :=
  ⟨800, 480, 0, 1, 2, 3, 5, 6⟩

lemma expectedSize_eq_spec (hdr : VendorHeader)
    (hW : hdr.width < U32) (hH : hdr.height < U32)
    (hP : specBufferSize hdr < U32) :
    expectedSize hdr = specBufferSize hdr := by
  unfold expectedSize specBufferSize U32 at *
  have h1 : (if hdr.width % 2 = 0 then hdr.width / 2 else hdr.width / 2 + 1) % 4294967296
      = (hdr.width + 1) / 2 := by
    split <;> omega
  rw [h1, Nat.mod_eq_of_lt hH, Nat.mod_eq_of_lt hP]

lemma Display_buffer (hdr : VendorHeader) (b : List Nat) (rest : List NapiValue) :
    Display hdr (NapiValue.buffer b :: rest) =
      if b.length ≠ expectedSize hdr then
        ⟨.threw ⟨.error,
          "Buffer size mismatch. Expected " ++ toString (expectedSize hdr) ++ " bytes"⟩, []⟩
      else
        ⟨.ret .null, [.epdDisplay b]⟩ := by
  unfold Display argAt
  simp [NapiValue.isBuffer, NapiValue.bufferData]

/-- C1: for every call to `display` whose first argument is a buffer, a length
different from `ceil(width/2) * height` throws the descriptive size-mismatch
`Napi::Error` and invokes no driver routine, while a length equal to it
forwards the raw bytes to `EPD_7IN3E_Display` and returns `null`. -/
theorem display_size_contract (hdr : VendorHeader)
    (hW : hdr.width < U32) (hH : hdr.height < U32)
    (hP : specBufferSize hdr < U32) (b : List Nat) (rest : List NapiValue) :
    (b.length ≠ specBufferSize hdr →
        Display hdr (NapiValue.buffer b :: rest) =
          ⟨.threw ⟨.error,
            "Buffer size mismatch. Expected " ++ toString (specBufferSize hdr) ++ " bytes"⟩,
           []⟩)
  ∧ (b.length = specBufferSize hdr →
        Display hdr (NapiValue.buffer b :: rest) =
          ⟨.ret .null, [.epdDisplay b]⟩) := by
  have he := expectedSize_eq_spec hdr hW hH hP
  constructor
  · intro h
    rw [Display_buffer, he]
    simp [h]
  · intro h
    rw [Display_buffer, he]
    simp [h]

/-- Witness for C1 at the concrete 800x480 panel and the empty buffer. -/
theorem display_size_contract_witness :
    Display hdr800 [NapiValue.buffer []] =
      ⟨.threw ⟨.error,
        "Buffer size mismatch. Expected " ++ toString (specBufferSize hdr800) ++ " bytes"⟩,
       []⟩ :=
  (display_size_contract hdr800 (by decide) (by decide) (by decide) [] []).1 (by decide)

/-- C2: `init` throws the runtime error exactly when `DEV_Module_Init` reports
a non-zero status (never a silent no-op), and on zero status it goes on to
invoke the panel init and returns `null`. -/
theorem init_error_iff (s : Nat) :
    ((Init s).result = .threw ⟨.error, "Failed to initialize e-Paper module"⟩ ↔ s ≠ 0)
  ∧ (s = 0 → Init s = ⟨.ret .null, [.devModuleInit, .epdInit]⟩) := by
  by_cases h : s = 0 <;> simp [Init, h]

/-- Witness for C2 at statuses 1 (failure) and 0 (success). -/
theorem init_error_iff_witness :
    (Init 1).result = .threw ⟨.error, "Failed to initialize e-Paper module"⟩
  ∧ Init 0 = ⟨.ret .null, [.devModuleInit, .epdInit]⟩ :=
  ⟨(init_error_iff 1).1.mpr (by decide), (init_error_iff 0).2 rfl⟩

/-- C3: `getBufferSize` returns exactly `ceil(width/2) * height`, and a
display buffer is accepted exactly when its length equals that value. -/
theorem getBufferSize_spec (hdr : VendorHeader)
    (hW : hdr.width < U32) (hH : hdr.height < U32)
    (hP : specBufferSize hdr < U32) :
    (∀ info, GetBufferSize hdr info = ⟨.ret (.number (specBufferSize hdr : Int)), []⟩)
  ∧ (∀ (b : List Nat) (rest : List NapiValue),
      (Display hdr (NapiValue.buffer b :: rest)).result = .ret .null ↔
        b.length = specBufferSize hdr) := by
  have he := expectedSize_eq_spec hdr hW hH hP
  constructor
  · intro info
    unfold GetBufferSize
    rw [he]
  · intro b rest
    rw [Display_buffer, he]
    by_cases h : b.length = specBufferSize hdr <;> simp [h]

/-- Witness for C3 at the concrete 800x480 panel: the buffer size is 192000. -/
theorem getBufferSize_spec_witness :
    GetBufferSize hdr800 [] = ⟨.ret (.number 192000), []⟩ :=
  (getBufferSize_spec hdr800 (by decide) (by decide) (by decide)).1 []

/-- C4 counterexample: `clear(256)` is numeric and outside `0..255`, yet it is
not rejected: the call succeeds and forwards color 0 to the driver. -/
theorem clear_out_of_range_forwarded :
    Clear [NapiValue.number 256] = ⟨.ret .null, [.epdClear 0]⟩ := by decide

/-- C4 amended: `clear` rejects only missing or non-numeric first arguments;
every numeric argument is accepted and forwarded truncated to a byte (its
`uint32` value modulo 256), so in-range arguments `0..255` are forwarded
exactly and out-of-range arguments are wrapped rather than rejected. -/
theorem clear_numeric_truncated (v : Int) (rest : List NapiValue) :
    Clear (NapiValue.number v :: rest) = ⟨.ret .null, [.epdClear (toUint32 v % 256)]⟩
  ∧ (0 ≤ v → v ≤ 255 → toUint32 v % 256 = v.toNat) := by
  constructor
  · simp [Clear, argAt, NapiValue.isNumber, NapiValue.uint32Value]
  · intro h1 h2
    unfold toUint32
    omega

/-- Witness for C4 amended at the in-range value 7. -/
theorem clear_numeric_truncated_witness :
    Clear [NapiValue.number 7] = ⟨.ret .null, [.epdClear (toUint32 7 % 256)]⟩
  ∧ toUint32 7 % 256 = (7 : Int).toNat :=
  ⟨(clear_numeric_truncated 7 []).1, (clear_numeric_truncated 7 []).2 (by decide) (by decide)⟩

/-- C5: `clear` with zero arguments throws the arity `TypeError` and invokes
no driver routine. -/
theorem clear_no_args_arity_error :
    Clear [] = ⟨.threw ⟨.typeError, "Wrong number of arguments"⟩, []⟩ := by
  decide

/-- C6: `clear` with a non-numeric first argument throws the type error and
invokes no driver routine. -/
theorem clear_non_number_type_error (v : NapiValue) (rest : List NapiValue)
    (h : v.isNumber = false) :
    Clear (v :: rest) = ⟨.threw ⟨.typeError, "Expected number"⟩, []⟩ := by
  simp [Clear, argAt, h]

/-- Witness for C6 at the non-numeric argument `null`. -/
theorem clear_non_number_type_error_witness :
    Clear [NapiValue.null] = ⟨.threw ⟨.typeError, "Expected number"⟩, []⟩ :=
  clear_non_number_type_error NapiValue.null [] (by decide)

/-- C7: every numeric argument to `clear` is forwarded as its `ToUint32`
value reduced modulo 256 (the `uint8_t` truncation), which equals the
mathematical value modulo 256; in particular `clear(256)` forwards 0. -/
theorem clear_forwards_uint32_mod256 (v : Int) (rest : List NapiValue) :
    Clear (NapiValue.number v :: rest) = ⟨.ret .null, [.epdClear (toUint32 v % 256)]⟩
  ∧ toUint32 v % 256 = (v % 256).toNat
  ∧ Clear [NapiValue.number 256] = ⟨.ret .null, [.epdClear 0]⟩ := by
  refine ⟨?_, ?_, by decide⟩
  · simp [Clear, argAt, NapiValue.isNumber, NapiValue.uint32Value]
  · unfold toUint32
    omega

/-- C8: when `DEV_Module_Init` reports a non-zero status, `init` returns from
the error branch before the panel init, so `EPD_7IN3E_Init` is never
invoked. -/
theorem init_failure_skips_panel_init (s : Nat) (h : s ≠ 0) :
    (Init s).calls = [DriverCall.devModuleInit]
  ∧ DriverCall.epdInit ∉ (Init s).calls := by
  constructor
  · simp [Init, h]
  · simp [Init, h]

/-- Witness for C8 at status 1. -/
theorem init_failure_skips_panel_init_witness :
    (Init 1).calls = [DriverCall.devModuleInit]
  ∧ DriverCall.epdInit ∉ (Init 1).calls :=
  init_failure_skips_panel_init 1 (by decide)

/-- C9: `getWidth`, `getHeight` and `getBufferSize` are pure and
deterministic: for any two calls (any argument lists, at any point) the
outcomes coincide and equal the vendor-header constants, and the `Colors`
mapping is the same fixed association of the vendor codes on every read. -/
theorem accessors_constant (hdr : VendorHeader) (info info' : List NapiValue) :
    GetWidth hdr info = GetWidth hdr info'
  ∧ GetHeight hdr info = GetHeight hdr info'
  ∧ GetBufferSize hdr info = GetBufferSize hdr info'
  ∧ GetWidth hdr info = ⟨.ret (.number (hdr.width : Int)), []⟩
  ∧ GetHeight hdr info = ⟨.ret (.number (hdr.height : Int)), []⟩
  ∧ GetBufferSize hdr info = ⟨.ret (.number (expectedSize hdr : Int)), []⟩
  ∧ CreateColorConstants hdr =
      [("BLACK", hdr.black), ("WHITE", hdr.white), ("YELLOW", hdr.yellow),
       ("RED", hdr.red), ("BLUE", hdr.blue), ("GREEN", hdr.green)] :=
  ⟨rfl, rfl, rfl, rfl, rfl, rfl, rfl⟩

/-- C10: the `Colors` object holds exactly the six keys BLACK, WHITE, YELLOW,
RED, BLUE, GREEN, each bound to the corresponding vendor-header color code. -/
theorem colors_exact_mapping (hdr : VendorHeader) :
    (CreateColorConstants hdr).map Prod.fst =
      ["BLACK", "WHITE", "YELLOW", "RED", "BLUE", "GREEN"]
  ∧ List.lookup "BLACK" (CreateColorConstants hdr) = some hdr.black
  ∧ List.lookup "WHITE" (CreateColorConstants hdr) = some hdr.white
  ∧ List.lookup "YELLOW" (CreateColorConstants hdr) = some hdr.yellow
  ∧ List.lookup "RED" (CreateColorConstants hdr) = some hdr.red
  ∧ List.lookup "BLUE" (CreateColorConstants hdr) = some hdr.blue
  ∧ List.lookup "GREEN" (CreateColorConstants hdr) = some hdr.green := by
  refine ⟨rfl, ?_, ?_, ?_, ?_, ?_, ?_⟩ <;> simp [CreateColorConstants, List.lookup]

end Epd
